import Mathlib

/-!
Verification of the micro-scraper request orchestration core
(`src/routes/scrape.ts` and the unnamed duplicate route file) as a shallow
embedding.  The external browser-automation engine (Playwright) is modelled
by an environment record `EngineAttempt` giving the outcome of each engine
call an attempt can make; the asynchronous race against the global deadline
is modelled by a boolean saying which side of `Promise.race` settles first.
Side effects relevant to the spec (importing the engine, launching and
closing a browser, starting and finishing an attempt) are recorded in an
event trace.
-/

instance {e a : Type} [DecidableEq e] [DecidableEq a] : DecidableEq (Except e a) := fun x y =>
  match x, y with
  | .ok u, .ok v =>
      if h : u = v then isTrue (by rw [h]) else isFalse (by intro hc; cases hc; exact h rfl)
  | .error u, .error v =>
      if h : u = v then isTrue (by rw [h]) else isFalse (by intro hc; cases hc; exact h rfl)
  | .ok _, .error _ => isFalse (by intro hc; cases hc)
  | .error _, .ok _ => isFalse (by intro hc; cases hc)

/-- The result object built by a successful attempt:
`{ title, metaDescription, h1, status: 200 }`.  JavaScript `null` (and the
practically unreachable `undefined` for `h1`) are both `none`. -/
structure ScrapeResult where
  title : Option String
  metaDescription : Option String
  h1 : Option String
  status : Nat
deriving DecidableEq, Repr

/-- Environment for one attempt: the outcome of each call the attempt makes
to the browser engine, in program order.  `Except.error m` means the call
rejects with an error whose `.message` is `m`.
* `launch` — `playwright.chromium.launch({ headless: true })`
* `newContext` — `browser.newContext({ userAgent })`
* `newPage` — `context.newPage()`
* `goto` — `page.goto(url, { waitUntil: networkidle, timeout: 15000 })`
* `title` — `page.title()` (resolves to a string, possibly empty)
* `metaDesc` — `page.$eval(descrSelector, el => el.getAttribute(content))`:
  resolves to a string or `null`, rejects when no element matches
* `h1` — `page.$eval(h1Selector, el => el.textContent?.trim())` -/
structure EngineAttempt where
  launch : Except String Unit
  newContext : Except String Unit
  newPage : Except String Unit
  goto : Except String Unit
  title : Except String String
  metaDesc : Except String (Option String)
  h1 : Except String (Option String)
deriving DecidableEq, Repr

/-- Observable resource and control events of one request. -/
inductive Ev where
  | importEngine
  | attemptStart (n : Nat)
  | launch
  | close
  | attemptEnd (n : Nat) (ok : Bool)
deriving DecidableEq, Repr

/-- Outcome of one attempt together with the events it performed. -/
structure AttemptResult where
  outcome : Except String ScrapeResult
  events : List Ev
deriving DecidableEq, Repr

/-- `NAVIGATION_TIMEOUT_MS` in the source (per-attempt goto timeout). -/
def NAV_TIMEOUT_MS : Nat := 15000

def GLOBAL_TIMEOUT_MS : Nat := 20000

def MAX_ATTEMPTS : Nat := 2

/-- JavaScript `s.includes(pat)`: `pat` occurs as a contiguous substring. -/
def strContains (s pat : String) : Bool :=
  (List.range (s.toList.length + 1)).any fun i => pat.toList.isPrefixOf (s.toList.drop i)

/-- Modelled from the spec: the helper `isValidHttpUrl` is imported from
`src/utils/validateUrl.ts`, a file not present among the provided sources.
Per the spec the raw `url` query value must be present and parse as an
absolute URL whose scheme is http or https; we model this as a scheme
prefix followed by a nonempty remainder.  The handler theorems below only
depend on the boolean verdict, not on the parsing details. -/
def isValidHttpUrl : Option String → Bool
  | none => false
  | some s =>
      ("http://".toList.isPrefixOf s.toList && s.toList.length > 7) ||
      ("https://".toList.isPrefixOf s.toList && s.toList.length > 8)

/-- `attemptScrape` from `src/routes/scrape.ts` lines 62-96.  `launch`,
`newContext` and `newPage` happen before the `try` block; the `try` covers
`goto`, the three extractions and the success-path `close`; the `catch`
closes the browser and rethrows.  `page.title()` has no `.catch`, the two
`$eval` calls each have `.catch(() => null)`. -/
def attemptScrape (e : EngineAttempt) : AttemptResult :=
  match e.launch with
  | .error m => { outcome := .error m, events := [] }
  | .ok _ =>
    match e.newContext with
    | .error m => { outcome := .error m, events := [Ev.launch] }
    | .ok _ =>
      match e.newPage with
      | .error m => { outcome := .error m, events := [Ev.launch] }
      | .ok _ =>
        match e.goto with
        | .error m => { outcome := .error m, events := [Ev.launch, Ev.close] }
        | .ok _ =>
          match e.title with
          | .error m => { outcome := .error m, events := [Ev.launch, Ev.close] }
          | .ok t =>
            let title := if t = "" then none else some t
            let metaDescription : Option String :=
              match e.metaDesc with
              | .error _ => none
              | .ok v => v
            let h1 : Option String :=
              match e.h1 with
              | .error _ => none
              | .ok v => v
            { outcome := .ok { title := title, metaDescription := metaDescription,
                               h1 := h1, status := 200 },
              events := [Ev.launch, Ev.close] }

/-- The `for (attempt = 1; attempt <= MAX_ATTEMPTS; attempt++)` loop of
`overallPromise` (lines 102-115), as structural recursion on the number of
attempts still allowed.  After the loop: `reject(lastError || new
Error(Unknown error))`. -/
def scrapeLoop (f : Nat → EngineAttempt) :
    Nat → Nat → Option String → Except String ScrapeResult × List Ev
  | _, 0, lastError => (.error (lastError.getD "Unknown error"), [])
  | attempt, remaining + 1, _lastError =>
    let a := attemptScrape (f attempt)
    match a.outcome with
    | .ok res =>
        (.ok res, Ev.attemptStart attempt :: a.events ++ [Ev.attemptEnd attempt true])
    | .error m =>
        let rest := scrapeLoop f (attempt + 1) remaining (some m)
        (rest.1, (Ev.attemptStart attempt :: a.events ++ [Ev.attemptEnd attempt false]) ++ rest.2)

/-- `overallPromise`: the retry controller, starting at attempt 1 with no
recorded error. -/
def overallPromise (f : Nat → EngineAttempt) : Except String ScrapeResult × List Ev :=
  scrapeLoop f 1 MAX_ATTEMPTS none

/-- `Promise.race([overallPromise, timeoutPromise])`: when the 20-second
timer settles first the race rejects with `new Error(Timeout)`, otherwise
the race settles with the retry outcome. -/
def raced (f : Nat → EngineAttempt) (deadlineFirst : Bool) : Except String ScrapeResult :=
  if deadlineFirst then .error "Timeout" else (overallPromise f).1

/-- JSON response bodies the route can produce. -/
inductive Body where
  | result (r : ScrapeResult)
  | errorBody (e : String)
  | errorDetails (e d : String)
deriving DecidableEq, Repr

/-- The route handler of `src/routes/scrape.ts` (lines 46-137): validate the
url, lazily import the engine, race the retry loop against the deadline,
map the outcome.  Returns the HTTP status with its body, and the trace of
engine events the request performed. -/
def handle (url : Option String) (f : Nat → EngineAttempt) (deadlineFirst : Bool) :
    (Nat × Body) × List Ev :=
  if isValidHttpUrl url = false then
    ((400, Body.errorBody "Invalid URL"), [])
  else
    let run := overallPromise f
    let evs := Ev.importEngine :: run.2
    match raced f deadlineFirst with
    | .ok r => ((200, Body.result r), evs)
    | .error m =>
      let message := if m = "" then "Scraping failed" else m
      if strContains message "Timeout" then ((504, Body.errorBody "Timeout"), evs)
      else ((500, Body.errorDetails "Scraping failed" message), evs)

/-! The second route implementation, `src/unnamed/part_001`, embedded
independently: same validation, same attempt body (modulo console logging),
same loop, same race, and an `if / else` instead of early returns in the
error mapping. -/

/-- `attemptScrape` from `src/unnamed/part_001` lines 20-47. -/
def attemptScrape2 (e : EngineAttempt) : AttemptResult :=
  match e.launch with
  | .error m => { outcome := .error m, events := [] }
  | .ok _ =>
    match e.newContext with
    | .error m => { outcome := .error m, events := [Ev.launch] }
    | .ok _ =>
      match e.newPage with
      | .error m => { outcome := .error m, events := [Ev.launch] }
      | .ok _ =>
        match e.goto with
        | .error m => { outcome := .error m, events := [Ev.launch, Ev.close] }
        | .ok _ =>
          match e.title with
          | .error m => { outcome := .error m, events := [Ev.launch, Ev.close] }
          | .ok t =>
            let title := if t = "" then none else some t
            let metaDescription : Option String :=
              match e.metaDesc with
              | .error _ => none
              | .ok v => v
            let h1 : Option String :=
              match e.h1 with
              | .error _ => none
              | .ok v => v
            { outcome := .ok { title := title, metaDescription := metaDescription,
                               h1 := h1, status := 200 },
              events := [Ev.launch, Ev.close] }

/-- The retry loop of `src/unnamed/part_001` lines 49-63. -/
def scrapeLoop2 (f : Nat → EngineAttempt) :
    Nat → Nat → Option String → Except String ScrapeResult × List Ev
  | _, 0, lastError => (.error (lastError.getD "Unknown error"), [])
  | attempt, remaining + 1, _lastError =>
    let a := attemptScrape2 (f attempt)
    match a.outcome with
    | .ok res =>
        (.ok res, Ev.attemptStart attempt :: a.events ++ [Ev.attemptEnd attempt true])
    | .error m =>
        let rest := scrapeLoop2 f (attempt + 1) remaining (some m)
        (rest.1, (Ev.attemptStart attempt :: a.events ++ [Ev.attemptEnd attempt false]) ++ rest.2)

/-- `overallPromise` of `src/unnamed/part_001`. -/
def overallPromise2 (f : Nat → EngineAttempt) : Except String ScrapeResult × List Ev :=
  scrapeLoop2 f 1 MAX_ATTEMPTS none

/-- The race of `src/unnamed/part_001` lines 65-70. -/
def raced2 (f : Nat → EngineAttempt) (deadlineFirst : Bool) : Except String ScrapeResult :=
  if deadlineFirst then .error "Timeout" else (overallPromise2 f).1

/-- The route handler of `src/unnamed/part_001` lines 9-80. -/
def handle2 (url : Option String) (f : Nat → EngineAttempt) (deadlineFirst : Bool) :
    (Nat × Body) × List Ev :=
  if isValidHttpUrl url = false then
    ((400, Body.errorBody "Invalid URL"), [])
  else
    let run := overallPromise2 f
    let evs := Ev.importEngine :: run.2
    match raced2 f deadlineFirst with
    | .ok r => ((200, Body.result r), evs)
    | .error m =>
      let message := if m = "" then "Scraping failed" else m
      if strContains message "Timeout" then ((504, Body.errorBody "Timeout"), evs)
      else ((500, Body.errorDetails "Scraping failed" message), evs)

/-! Concrete engine environments used by witnesses and counterexamples. -/

/-- An attempt in which every engine call succeeds; the page has a title,
no description meta tag and no h1 (both selector queries reject). -/
def envOk : EngineAttempt :=
  { launch := .ok (), newContext := .ok (), newPage := .ok (),
    goto := .ok (), title := .ok "Example Domain",
    metaDesc := .error "failed to find element matching selector",
    h1 := .error "failed to find element matching selector" }

/-- An attempt whose per-attempt goto deadline expires: Playwright rejects
with a message that contains the word Timeout. -/
def envNavTimeout : EngineAttempt :=
  { envOk with goto := .error "page.goto: Timeout 15000ms exceeded." }

/-- An attempt whose goto fails with a connection error. -/
def envConnRefused : EngineAttempt :=
  { envOk with goto := .error "net::ERR_CONNECTION_REFUSED" }

/-- An attempt in which creating the browsing context rejects. -/
def envCtxErr : EngineAttempt :=
  { envOk with newContext := .error "browser has been closed" }

/-- An attempt in which the title query itself rejects. -/
def envTitleErr : EngineAttempt :=
  { envOk with title := .error "Execution context was destroyed" }

/-! Helper lemmas shared by the claim proofs. -/

/-- Every successful attempt outcome carries status 200. -/
lemma attemptScrape_ok_status (e : EngineAttempt) (r : ScrapeResult)
    (h : (attemptScrape e).outcome = .ok r) : r.status = 200 := by
  obtain ⟨l, c, p, g, t, md, h1f⟩ := e
  cases l <;> cases c <;> cases p <;> cases g <;> cases t <;>
    simp [attemptScrape] at h
  rw [← h]

/-- Shape analysis of one attempt: a successful attempt launched and closed
the browser; a failed attempt performed one of three event traces. -/
lemma attemptScrape_cases (e : EngineAttempt) :
    (∃ r, (attemptScrape e).outcome = .ok r ∧
      (attemptScrape e).events = [Ev.launch, Ev.close]) ∨
    (∃ m, (attemptScrape e).outcome = .error m ∧
      ((attemptScrape e).events = [] ∨ (attemptScrape e).events = [Ev.launch] ∨
       (attemptScrape e).events = [Ev.launch, Ev.close])) := by
  obtain ⟨l, c, p, g, t, md, h1f⟩ := e
  cases l <;> cases c <;> cases p <;> cases g <;> cases t <;> simp [attemptScrape]

/-- The events of one attempt never include an attempt-start marker. -/
lemma attemptScrape_no_start (e : EngineAttempt) (n : Nat) :
    Ev.attemptStart n ∉ (attemptScrape e).events := by
  rcases attemptScrape_cases e with ⟨r, _, hev⟩ | ⟨m, _, hev | hev | hev⟩ <;>
    simp [hev]

/-- C9: the two route implementations are the same function of the request
input and the engine environment. -/
theorem routes_equivalent (url : Option String) (f : Nat → EngineAttempt)
    (deadlineFirst : Bool) : handle url f deadlineFirst = handle2 url f deadlineFirst := rfl

/-- C2 (code bug): when `browser.newContext` rejects, the attempt propagates
the error without ever calling `browser.close` — the launched browser
session leaks, although the spec requires release on every exit path.  The
launch event is in the trace, the close event is not. -/
theorem session_leak_on_context_error :
    (attemptScrape envCtxErr).outcome = Except.error "browser has been closed" ∧
    (attemptScrape envCtxErr).events = [Ev.launch] ∧
    Ev.close ∉ (attemptScrape envCtxErr).events := by
  refine ⟨rfl, rfl, ?_⟩
  decide

/-- C3 (counterexample): an error raised by the title query is not absorbed;
the attempt propagates it, contradicting the claim that a title-query error
never fails the attempt. -/
theorem title_error_fails_attempt :
    (attemptScrape envTitleErr).outcome =
      Except.error "Execution context was destroyed" := rfl

/-- C3 (amended): once navigation succeeds, a title that resolves — even to
the empty string — never fails the attempt and an empty title is recorded
as null; but an error raised by the title query is caught by the
attempt-level handler, which closes the session and propagates the error. -/
theorem title_extraction_behavior (e : EngineAttempt)
    (hl : e.launch = .ok ()) (hc : e.newContext = .ok ())
    (hp : e.newPage = .ok ()) (hg : e.goto = .ok ()) :
    (∀ t, e.title = .ok t → ∃ r, (attemptScrape e).outcome = .ok r ∧
      r.title = (if t = "" then none else some t)) ∧
    (∀ m, e.title = .error m → (attemptScrape e).outcome = .error m ∧
      (attemptScrape e).events = [Ev.launch, Ev.close]) := by
  obtain ⟨l, c, p, g, t, md, h1f⟩ := e
  simp only at hl hc hp hg
  subst hl hc hp hg
  constructor
  · intro t0 ht
    simp only at ht
    subst ht
    simp [attemptScrape]
  · intro m hm
    simp only at hm
    subst hm
    simp [attemptScrape]

/-- Witness for the title-extraction theorem at a concrete environment. -/
theorem title_extraction_behavior_witness :
    envTitleErr.launch = .ok () ∧ envTitleErr.goto = .ok () ∧
    (attemptScrape envTitleErr).outcome =
      Except.error "Execution context was destroyed" ∧
    (attemptScrape envTitleErr).events = [Ev.launch, Ev.close] := by
  have h := (title_extraction_behavior envTitleErr rfl rfl rfl rfl).2
    "Execution context was destroyed" rfl
  exact ⟨rfl, rfl, h.1, h.2⟩

/-- C10: whenever navigation succeeds and the engine resolves the title
query, the result records null exactly when the resolved title is the empty
string — the only falsy string — so an empty-string title is exposed as
null at the public interface. -/
theorem empty_title_maps_to_null (e : EngineAttempt)
    (hl : e.launch = .ok ()) (hc : e.newContext = .ok ())
    (hp : e.newPage = .ok ()) (hg : e.goto = .ok ())
    (t : String) (ht : e.title = .ok t) :
    ∃ r, (attemptScrape e).outcome = .ok r ∧
      r.title = (if t = "" then none else some t) ∧ (t = "" → r.title = none) := by
  obtain ⟨l, c, p, g, t0, md, h1f⟩ := e
  simp only at hl hc hp hg ht
  subst hl hc hp hg ht
  refine ⟨{ title := if t = "" then none else some t,
            metaDescription := match md with | .error _ => none | .ok v => v,
            h1 := match h1f with | .error _ => none | .ok v => v,
            status := 200 }, rfl, rfl, ?_⟩
  intro h0
  simp [h0]

/-- Witness: a page whose title resolves to the empty string yields a
result with a null title. -/
theorem empty_title_maps_to_null_witness :
    ({ envOk with title := .ok "" } : EngineAttempt).title = .ok "" ∧
    ∃ r, (attemptScrape { envOk with title := .ok "" }).outcome = .ok r ∧
      r.title = none := by
  obtain ⟨r, hr, hr2, hr3⟩ := empty_title_maps_to_null
    { envOk with title := .ok "" } rfl rfl rfl rfl "" rfl
  exact ⟨rfl, r, hr, hr3 rfl⟩

/-- C5: whenever the modelled validator rejects the raw url value, the
handler responds 400 with the Invalid URL body and the event trace is
empty — the engine is never imported, no browser is launched, no attempt
starts. -/
theorem invalid_url_rejected_before_browser (url : Option String)
    (f : Nat → EngineAttempt) (d : Bool) (h : isValidHttpUrl url = false) :
    handle url f d = ((400, Body.errorBody "Invalid URL"), []) := by
  simp [handle, h]

/-- Witness: a request with no url parameter is rejected with 400 and an
empty event trace. -/
theorem invalid_url_rejected_before_browser_witness :
    isValidHttpUrl none = false ∧
    handle none (fun _ => envOk) false = ((400, Body.errorBody "Invalid URL"), []) :=
  ⟨rfl, invalid_url_rejected_before_browser none (fun _ => envOk) false rfl⟩

/-- Unfolding equation of the loop when no attempts remain. -/
lemma scrapeLoop_zero (f : Nat → EngineAttempt) (a : Nat) (le : Option String) :
    scrapeLoop f a 0 le = (.error (le.getD "Unknown error"), []) := rfl

/-- Unfolding equation of the loop for one more allowed attempt. -/
lemma scrapeLoop_succ (f : Nat → EngineAttempt) (a n : Nat) (le : Option String) :
    scrapeLoop f a (n + 1) le =
      (match (attemptScrape (f a)).outcome with
       | .ok res =>
           (.ok res, Ev.attemptStart a :: (attemptScrape (f a)).events ++ [Ev.attemptEnd a true])
       | .error m =>
           ((scrapeLoop f (a + 1) n (some m)).1,
            (Ev.attemptStart a :: (attemptScrape (f a)).events ++ [Ev.attemptEnd a false]) ++
              (scrapeLoop f (a + 1) n (some m)).2)) := rfl

/-- When attempt 1 succeeds, the retry controller resolves with its result
after a single attempt. -/
lemma overallPromise_first_ok (f : Nat → EngineAttempt) (r : ScrapeResult)
    (h : (attemptScrape (f 1)).outcome = .ok r) :
    overallPromise f =
      (.ok r, Ev.attemptStart 1 :: (attemptScrape (f 1)).events ++ [Ev.attemptEnd 1 true]) := by
  rw [show overallPromise f = scrapeLoop f 1 (1 + 1) none from rfl, scrapeLoop_succ, h]

/-- When attempt 1 fails and attempt 2 succeeds, the retry controller
resolves with the second result after both attempts. -/
lemma overallPromise_second_ok (f : Nat → EngineAttempt) (m1 : String) (r : ScrapeResult)
    (h1 : (attemptScrape (f 1)).outcome = .error m1)
    (h2 : (attemptScrape (f 2)).outcome = .ok r) :
    overallPromise f =
      (.ok r,
       (Ev.attemptStart 1 :: (attemptScrape (f 1)).events ++ [Ev.attemptEnd 1 false]) ++
         (Ev.attemptStart 2 :: (attemptScrape (f 2)).events ++ [Ev.attemptEnd 2 true])) := by
  simp [overallPromise, MAX_ATTEMPTS, scrapeLoop, h1, h2]

/-- When both attempts fail, the retry controller rejects with the error of
the second attempt. -/
lemma overallPromise_both_err (f : Nat → EngineAttempt) (m1 m2 : String)
    (h1 : (attemptScrape (f 1)).outcome = .error m1)
    (h2 : (attemptScrape (f 2)).outcome = .error m2) :
    overallPromise f =
      (.error m2,
       (Ev.attemptStart 1 :: (attemptScrape (f 1)).events ++ [Ev.attemptEnd 1 false]) ++
         (Ev.attemptStart 2 :: (attemptScrape (f 2)).events ++ [Ev.attemptEnd 2 false])) := by
  simp [overallPromise, MAX_ATTEMPTS, scrapeLoop, h1, h2]

/-- Marker predicate for attempt-start events. -/
def isStartEv : Ev → Bool
  | Ev.attemptStart _ => true
  | _ => false

/-- The events inside one attempt contribute no attempt-start markers. -/
lemma attempt_events_start_count (e : EngineAttempt) :
    (attemptScrape e).events.countP isStartEv = 0 := by
  rw [List.countP_eq_zero]
  intro a ha
  rcases attemptScrape_cases e with ⟨r, _, hev⟩ | ⟨m, _, hev | hev | hev⟩ <;>
    rw [hev] at ha <;> simp at ha <;>
    first
      | (rcases ha with ha | ha <;> simp [ha, isStartEv])
      | simp [ha, isStartEv]

/-- C4: the retry controller starts at most two attempts; when attempt 1
succeeds it resolves with that result without starting attempt 2; when both
attempts fail it rejects with exactly the second error, discarding the
first. -/
theorem retry_controller_behavior (f : Nat → EngineAttempt) :
    (overallPromise f).2.countP isStartEv ≤ 2 ∧
    (∀ r, (attemptScrape (f 1)).outcome = .ok r →
      (overallPromise f).1 = .ok r ∧ Ev.attemptStart 2 ∉ (overallPromise f).2) ∧
    (∀ m1 m2, (attemptScrape (f 1)).outcome = .error m1 →
      (attemptScrape (f 2)).outcome = .error m2 →
      (overallPromise f).1 = .error m2) := by
  cases h1 : (attemptScrape (f 1)).outcome with
  | ok r1 =>
      have hov := overallPromise_first_ok f r1 h1
      refine ⟨?_, ?_, ?_⟩
      · rw [hov]
        simp [List.countP_cons, List.countP_append, attempt_events_start_count, isStartEv]
      · intro r hr
        injection hr with hr
        subst hr
        refine ⟨by rw [hov], ?_⟩
        rw [hov]
        intro hmem
        rcases List.mem_cons.mp hmem with h' | h'
        · exact absurd h' (by decide)
        · rcases List.mem_append.mp h' with h'' | h''
          · exact attemptScrape_no_start (f 1) 2 h''
          · simp at h''
      · intro m1 m2 hm1 _
        exact absurd hm1 (by simp)
  | error m1' =>
      cases h2 : (attemptScrape (f 2)).outcome with
      | ok r2 =>
          have hov := overallPromise_second_ok f m1' r2 h1 h2
          refine ⟨?_, ?_, ?_⟩
          · rw [hov]
            simp [List.countP_cons, List.countP_append, attempt_events_start_count, isStartEv]
          · intro r hr
            exact absurd hr (by simp)
          · intro m1 m2 _ hm2
            exact absurd hm2 (by simp)
      | error m2' =>
          have hov := overallPromise_both_err f m1' m2' h1 h2
          refine ⟨?_, ?_, ?_⟩
          · rw [hov]
            simp [List.countP_cons, List.countP_append, attempt_events_start_count, isStartEv]
          · intro r hr
            exact absurd hr (by simp)
          · intro m1 m2 hm1 hm2
            injection hm1 with hm1
            injection hm2 with hm2
            subst hm1 hm2
            rw [hov]

/-- Witness: when the only attempt environment succeeds, the controller
resolves with the first result and never starts attempt 2. -/
theorem retry_controller_behavior_witness :
    (attemptScrape envOk).outcome =
      .ok { title := some "Example Domain", metaDescription := none,
            h1 := none, status := 200 } ∧
    (overallPromise (fun _ => envOk)).1 =
      .ok { title := some "Example Domain", metaDescription := none,
            h1 := none, status := 200 } ∧
    Ev.attemptStart 2 ∉ (overallPromise (fun _ => envOk)).2 := by
  have h := (retry_controller_behavior (fun _ => envOk)).2.1
    { title := some "Example Domain", metaDescription := none,
      h1 := none, status := 200 } rfl
  exact ⟨rfl, h.1, h.2⟩

/-- When the url is valid and attempt 1 succeeds before the deadline, the
handler answers 200 with the first result. -/
lemma handle_of_first_ok (url : Option String) (f : Nat → EngineAttempt) (r : ScrapeResult)
    (hv : isValidHttpUrl url = true)
    (h1 : (attemptScrape (f 1)).outcome = .ok r) :
    (handle url f false).1 = (200, Body.result r) := by
  have hov := overallPromise_first_ok f r h1
  have hr : raced f false = .ok r := by rw [raced, if_neg (by simp), hov]
  simp [handle, hv, hr]

/-- C6: after successful navigation, a missing or erroring description-meta
query and a missing or erroring h1 query leave the attempt successful with
both fields null, and the whole request answers 200 with those nulls. -/
theorem missing_fields_yield_null_success (e : EngineAttempt)
    (hl : e.launch = .ok ()) (hc : e.newContext = .ok ())
    (hp : e.newPage = .ok ()) (hg : e.goto = .ok ())
    (t : String) (ht : e.title = .ok t)
    (hm : (∃ m, e.metaDesc = .error m) ∨ e.metaDesc = .ok none)
    (hh : (∃ m, e.h1 = .error m) ∨ e.h1 = .ok none) :
    (attemptScrape e).outcome =
      .ok { title := if t = "" then none else some t,
            metaDescription := none, h1 := none, status := 200 } ∧
    ∀ f : Nat → EngineAttempt, f 1 = e →
      (handle (some "https://example.com") f false).1 =
        (200, Body.result { title := if t = "" then none else some t,
                            metaDescription := none, h1 := none, status := 200 }) := by
  obtain ⟨l, c, p, g, t0, md, h1f⟩ := e
  simp only at hl hc hp hg ht hm hh
  subst hl hc hp hg ht
  have hout : (attemptScrape ⟨.ok (), .ok (), .ok (), .ok (), .ok t, md, h1f⟩).outcome =
      .ok { title := if t = "" then none else some t,
            metaDescription := none, h1 := none, status := 200 } := by
    rcases hm with ⟨m, hmm⟩ | hmm <;> rcases hh with ⟨m2, hhh⟩ | hhh <;>
      subst hmm <;> subst hhh <;> rfl
  refine ⟨hout, ?_⟩
  intro f hf
  apply handle_of_first_ok
  · decide
  · rw [hf]
    exact hout

/-- Witness: the concrete all-ok environment with absent meta and h1 yields
200 with both fields null. -/
theorem missing_fields_yield_null_success_witness :
    envOk.goto = .ok () ∧ envOk.title = .ok "Example Domain" ∧
    (attemptScrape envOk).outcome =
      .ok { title := some "Example Domain", metaDescription := none,
            h1 := none, status := 200 } ∧
    (handle (some "https://example.com") (fun _ => envOk) false).1 =
      (200, Body.result { title := some "Example Domain", metaDescription := none,
                          h1 := none, status := 200 }) := by
  have h := missing_fields_yield_null_success envOk rfl rfl rfl rfl
    "Example Domain" rfl (Or.inl ⟨"failed to find element matching selector", rfl⟩)
    (Or.inl ⟨"failed to find element matching selector", rfl⟩)
  exact ⟨rfl, rfl, h.1, h.2 (fun _ => envOk) rfl⟩

/-- Every successful race outcome carries status 200. -/
lemma raced_ok_status (f : Nat → EngineAttempt) (d : Bool) (r : ScrapeResult)
    (h : raced f d = .ok r) : r.status = 200 := by
  cases d with
  | true => simp [raced] at h
  | false =>
      rw [raced, if_neg (by simp)] at h
      cases h1 : (attemptScrape (f 1)).outcome with
      | ok r1 =>
          rw [overallPromise_first_ok f r1 h1] at h
          injection h with h
          subst h
          exact attemptScrape_ok_status (f 1) r1 h1
      | error m1 =>
          cases h2 : (attemptScrape (f 2)).outcome with
          | ok r2 =>
              rw [overallPromise_second_ok f m1 r2 h1 h2] at h
              injection h with h
              subst h
              exact attemptScrape_ok_status (f 2) r2 h2
          | error m2 =>
              rw [overallPromise_both_err f m1 m2 h1 h2] at h
              exact absurd h (by simp)

/-- C7: when the raced work succeeds, the handler answers 200 with the full
result whose status field is 200; and every response of the handler is one
of the four shapes — a full result with status 200, the Invalid URL body,
the Timeout body, or the Scraping failed body with details — never a
partial result. -/
theorem success_mapping_full_result (url : Option String) (f : Nat → EngineAttempt)
    (r : ScrapeResult) (hv : isValidHttpUrl url = true) (hr : raced f false = .ok r) :
    (handle url f false).1 = (200, Body.result r) ∧ r.status = 200 ∧
    ∀ (u2 : Option String) (f2 : Nat → EngineAttempt) (d2 : Bool),
      (∃ r2, (handle u2 f2 d2).1 = (200, Body.result r2) ∧ r2.status = 200) ∨
      (handle u2 f2 d2).1 = (400, Body.errorBody "Invalid URL") ∨
      (handle u2 f2 d2).1 = (504, Body.errorBody "Timeout") ∨
      ∃ det, (handle u2 f2 d2).1 = (500, Body.errorDetails "Scraping failed" det) := by
  refine ⟨by simp [handle, hv, hr], raced_ok_status f false r hr, ?_⟩
  intro u2 f2 d2
  cases hv2 : isValidHttpUrl u2 with
  | false =>
      right; left
      simp [handle, hv2]
  | true =>
      cases hr2 : raced f2 d2 with
      | ok r2 =>
          left
          exact ⟨r2, by simp [handle, hv2, hr2], raced_ok_status f2 d2 r2 hr2⟩
      | error m =>
          cases hc : strContains (if m = "" then "Scraping failed" else m) "Timeout" with
          | true =>
              right; right; left
              simp [handle, hv2, hr2, hc]
          | false =>
              right; right; right
              exact ⟨if m = "" then "Scraping failed" else m, by simp [handle, hv2, hr2, hc]⟩

/-- Witness: a fully successful request is answered 200 with the full
result. -/
theorem success_mapping_full_result_witness :
    isValidHttpUrl (some "https://example.com") = true ∧
    raced (fun _ => envOk) false =
      .ok { title := some "Example Domain", metaDescription := none,
            h1 := none, status := 200 } ∧
    (handle (some "https://example.com") (fun _ => envOk) false).1 =
      (200, Body.result { title := some "Example Domain", metaDescription := none,
                          h1 := none, status := 200 }) := by
  refine ⟨by decide, rfl, ?_⟩
  exact (success_mapping_full_result (some "https://example.com") (fun _ => envOk)
    { title := some "Example Domain", metaDescription := none,
      h1 := none, status := 200 } (by decide) rfl).1

/-- C1 (counterexample): a request whose deadline did NOT fire, and whose
two attempts both failed with the per-attempt goto timeout error, is
answered 504 with the Timeout body — not 500 — because the handler
dispatches on the substring Timeout in the final error message, which the
Playwright goto-timeout message contains. -/
theorem nav_timeout_answered_504 :
    raced (fun _ => envNavTimeout) false =
      Except.error "page.goto: Timeout 15000ms exceeded." ∧
    (handle (some "https://example.com") (fun _ => envNavTimeout) false).1 =
      (504, Body.errorBody "Timeout") ∧
    (handle (some "https://example.com") (fun _ => envNavTimeout) false).1 ≠
      (500, Body.errorDetails "Scraping failed" "page.goto: Timeout 15000ms exceeded.") := by
  refine ⟨rfl, ?_, ?_⟩ <;> decide

/-- C1 (amended): for every failing request, the handler answers 504 with
the Timeout body exactly when the final error message — or the fallback
text Scraping failed when the message is empty — contains the substring
Timeout; this covers the global deadline, whose error message is exactly
Timeout, but also any other failure whose message happens to contain
Timeout, such as a per-attempt goto timeout.  Every other failure is
answered 500 with the message as details. -/
theorem error_mapping_by_message (url : Option String) (f : Nat → EngineAttempt)
    (d : Bool) (m : String) (hv : isValidHttpUrl url = true)
    (hf : raced f d = .error m) :
    (handle url f d).1 =
      (if strContains (if m = "" then "Scraping failed" else m) "Timeout"
       then (504, Body.errorBody "Timeout")
       else (500, Body.errorDetails "Scraping failed"
              (if m = "" then "Scraping failed" else m))) ∧
    (d = true → (handle url f d).1 = (504, Body.errorBody "Timeout")) := by
  constructor
  · cases hc : strContains (if m = "" then "Scraping failed" else m) "Timeout" <;>
      simp [handle, hv, hf, hc]
  · intro hd
    subst hd
    have hm : m = "Timeout" := by
      rw [raced] at hf
      simp at hf
      exact hf.symm
    subst hm
    have hct : strContains "Timeout" "Timeout" = true := by decide
    simp [handle, hv, hf, hct]

/-- Witness: a request failing with a connection error on both attempts is
answered 500 with the message as details. -/
theorem error_mapping_by_message_witness :
    isValidHttpUrl (some "https://example.com") = true ∧
    raced (fun _ => envConnRefused) false = .error "net::ERR_CONNECTION_REFUSED" ∧
    (handle (some "https://example.com") (fun _ => envConnRefused) false).1 =
      (500, Body.errorDetails "Scraping failed" "net::ERR_CONNECTION_REFUSED") := by
  refine ⟨by decide, rfl, ?_⟩
  have h := (error_mapping_by_message (some "https://example.com")
    (fun _ => envConnRefused) false "net::ERR_CONNECTION_REFUSED" (by decide) rfl).1
  rw [h]
  decide

/-- In a trace of the form xs ++ [attempt 1 failed, attempt 2 starts] ++ ys
where neither side contains another attempt-2 start, every occurrence of
the attempt-2 start is at the position directly after the attempt-1
failure. -/
lemma seq_of_shape (xs ys : List Ev) (i : Nat)
    (hx : Ev.attemptStart 2 ∉ xs) (hy : Ev.attemptStart 2 ∉ ys)
    (h : (xs ++ Ev.attemptEnd 1 false :: Ev.attemptStart 2 :: ys)[i]? =
      some (Ev.attemptStart 2)) :
    1 ≤ i ∧
    (xs ++ Ev.attemptEnd 1 false :: Ev.attemptStart 2 :: ys)[i - 1]? =
      some (Ev.attemptEnd 1 false) := by
  have hi : i = xs.length + 1 := by
    rcases Nat.lt_trichotomy i xs.length with hlt | heq | hgt
    · rw [List.getElem?_append_left hlt] at h
      exact absurd (List.getElem?_mem h) hx
    · rw [List.getElem?_append_right (Nat.le_of_eq heq.symm)] at h
      have h0 : i - xs.length = 0 := by omega
      rw [h0] at h
      simp at h
    · by_contra hne
      have h2 : xs.length + 2 ≤ i := by omega
      rw [List.getElem?_append_right (by omega)] at h
      have h3 : i - xs.length = (i - xs.length - 2) + 2 := by omega
      rw [h3] at h
      simp only [List.getElem?_cons_succ] at h
      exact absurd (List.getElem?_mem h) hy
  subst hi
  refine ⟨by omega, ?_⟩
  have h4 : xs.length + 1 - 1 = xs.length := by omega
  rw [h4, List.getElem?_append_right (Nat.le_refl _), Nat.sub_self]
  exact List.getElem?_cons_zero

/-- C8: within one request, whenever attempt 2 appears as started in the
event trace, the event directly before it is attempt 1 finishing in
failure — attempt 2 never starts before attempt 1's outcome is observed,
and nothing is inserted between the two attempts. -/
theorem attempts_sequential_no_delay (f : Nat → EngineAttempt) (i : Nat)
    (h : ((overallPromise f).2)[i]? = some (Ev.attemptStart 2)) :
    1 ≤ i ∧ ((overallPromise f).2)[i - 1]? = some (Ev.attemptEnd 1 false) := by
  cases h1 : (attemptScrape (f 1)).outcome with
  | ok r1 =>
      exfalso
      rw [overallPromise_first_ok f r1 h1] at h
      have hmem := List.getElem?_mem h
      rcases List.mem_cons.mp hmem with h' | h'
      · exact absurd h' (by decide)
      · rcases List.mem_append.mp h' with h'' | h''
        · exact attemptScrape_no_start (f 1) 2 h''
        · simp at h''
  | error m1 =>
      have hx : Ev.attemptStart 2 ∉ Ev.attemptStart 1 :: (attemptScrape (f 1)).events := by
        intro hmem
        rcases List.mem_cons.mp hmem with h' | h'
        · exact absurd h' (by decide)
        · exact attemptScrape_no_start (f 1) 2 h'
      cases h2 : (attemptScrape (f 2)).outcome with
      | ok r2 =>
          rw [overallPromise_second_ok f m1 r2 h1 h2] at h ⊢
          have hy : Ev.attemptStart 2 ∉ (attemptScrape (f 2)).events ++ [Ev.attemptEnd 2 true] := by
            intro hmem
            rcases List.mem_append.mp hmem with h' | h'
            · exact attemptScrape_no_start (f 2) 2 h'
            · simp at h'
          have hshape :
              (Ev.attemptStart 1 :: (attemptScrape (f 1)).events ++ [Ev.attemptEnd 1 false]) ++
                (Ev.attemptStart 2 :: (attemptScrape (f 2)).events ++ [Ev.attemptEnd 2 true]) =
              (Ev.attemptStart 1 :: (attemptScrape (f 1)).events) ++
                Ev.attemptEnd 1 false :: Ev.attemptStart 2 ::
                  ((attemptScrape (f 2)).events ++ [Ev.attemptEnd 2 true]) := by
            simp
          rw [hshape] at h ⊢
          exact seq_of_shape _ _ i hx hy h
      | error m2 =>
          rw [overallPromise_both_err f m1 m2 h1 h2] at h ⊢
          have hy : Ev.attemptStart 2 ∉ (attemptScrape (f 2)).events ++ [Ev.attemptEnd 2 false] := by
            intro hmem
            rcases List.mem_append.mp hmem with h' | h'
            · exact attemptScrape_no_start (f 2) 2 h'
            · simp at h'
          have hshape :
              (Ev.attemptStart 1 :: (attemptScrape (f 1)).events ++ [Ev.attemptEnd 1 false]) ++
                (Ev.attemptStart 2 :: (attemptScrape (f 2)).events ++ [Ev.attemptEnd 2 false]) =
              (Ev.attemptStart 1 :: (attemptScrape (f 1)).events) ++
                Ev.attemptEnd 1 false :: Ev.attemptStart 2 ::
                  ((attemptScrape (f 2)).events ++ [Ev.attemptEnd 2 false]) := by
            simp
          rw [hshape] at h ⊢
          exact seq_of_shape _ _ i hx hy h

/-- Witness: in the concrete failing-twice trace, attempt 2 starts at
position 4, directly after attempt 1 fails at position 3. -/
theorem attempts_sequential_no_delay_witness :
    ((overallPromise (fun _ => envNavTimeout)).2)[4]? = some (Ev.attemptStart 2) ∧
    (1 ≤ 4 ∧
      ((overallPromise (fun _ => envNavTimeout)).2)[4 - 1]? =
        some (Ev.attemptEnd 1 false)) :=
  ⟨by decide, attempts_sequential_no_delay (fun _ => envNavTimeout) 4 (by decide)⟩
